import Mathlib

/-!
# m-voice signaling core: shallow embedding and verification

This file embeds the signaling and peer-negotiation core of the m-voice
repository (backend room/participant model, join/leave/relay/rename use
cases, signaling controller disconnect path, and the client-side RTC
adapter's offer/glare handling) as executable Lean definitions, and proves
the frozen claims about it.

Conventions of the embedding:
* TypeScript `Map<string, T>` fields become insertion-ordered association
  lists (`Map.set` on a fresh key appends; `Map.delete` filters; values
  iterate in insertion order), matching JS `Map` semantics.
* TypeScript `throw` inside an entity constructor or `Room.addParticipant`
  becomes `Except String`; the use cases' `try/catch` blocks are modelled
  by pattern matching on those `Except` values exactly where the source
  catches.
* In-place mutation of an entity aliased by the store becomes an explicit
  store update at the room's key.
* Browser-generated SDP (the results of `RTCPeerConnection.createOffer` /
  `createAnswer`) is an input argument to the adapter functions, since it
  is produced by the environment, not by the code under verification.
-/

/-- JS `String.prototype.trim`: strip leading and trailing whitespace.
Modelled structurally over the character list so that proofs can evaluate
it (the ASCII whitespace set of `Char.isWhitespace` covers every character
the claims exercise). -/
def jsTrim (s : String) : String :=
  String.mk (((s.data.dropWhile Char.isWhitespace).reverse.dropWhile
    Char.isWhitespace).reverse)

/-- Backend domain entity `Participant` (src/backend/src/domain/entities/Participant.ts):
`id` plus optional `displayName`. -/
structure Participant where
  id : String
  displayName : Option String
deriving DecidableEq, Repr

/-- The `Participant` constructor guard: it throws
`Participant ID cannot be empty` when `!id || id.trim().length === 0`. -/
def mkParticipant (id : String) (displayName : Option String) : Except String Participant :=
  if id = "" || (jsTrim id).length = 0 then
    Except.error "Participant ID cannot be empty"
  else
    Except.ok { id := id, displayName := displayName }

/-- `Participant.toJSON`: the wire descriptor `{ id, displayName }`. -/
def Participant.toJSON (p : Participant) : String × Option String :=
  (p.id, p.displayName)

/-- `Participant.fromJSON`: rebuilds through the validating constructor. -/
def Participant.fromJSON (data : String × Option String) : Except String Participant :=
  mkParticipant data.1 data.2

/-- Backend domain entity `Room` (src/backend/src/domain/entities/Room.ts):
a caller-supplied id and an insertion-ordered participant map keyed by id. -/
structure Room where
  id : String
  participants : List Participant
deriving DecidableEq, Repr

/-- The `Room` constructor guard: throws `Room ID cannot be empty` when
`!id || id.trim().length === 0`; a fresh room starts empty. -/
def mkRoom (id : String) : Except String Room :=
  if id = "" || (jsTrim id).length = 0 then
    Except.error "Room ID cannot be empty"
  else
    Except.ok { id := id, participants := [] }

/-- `Room.MAX_PARTICIPANTS = 5`. -/
def Room.MAX_PARTICIPANTS : Nat := 5

/-- `Room.addParticipant`: throws on a duplicate id, then on a full room
(`participants.size >= 5`); otherwise `Map.set` appends the new entry. -/
def Room.addParticipant (room : Room) (p : Participant) : Except String Room :=
  if room.participants.any (fun q => q.id == p.id) then
    Except.error ("Participant " ++ p.id ++ " already in room")
  else if Room.MAX_PARTICIPANTS ≤ room.participants.length then
    Except.error "Room is full (max 5 participants)"
  else
    Except.ok { room with participants := room.participants ++ [p] }

/-- `Room.removeParticipant`: `Map.delete`, a no-op when the id is absent. -/
def Room.removeParticipant (room : Room) (participantId : String) : Room :=
  { room with participants := room.participants.filter (fun q => !(q.id == participantId)) }

/-- `Room.getParticipant`: `Map.get` by id. -/
def Room.getParticipant (room : Room) (participantId : String) : Option Participant :=
  room.participants.find? (fun q => q.id == participantId)

/-- `Room.getAllParticipants`: the map's values in insertion order. -/
def Room.getAllParticipants (room : Room) : List Participant :=
  room.participants

/-- `Room.isEmpty`. -/
def Room.isEmpty (room : Room) : Bool :=
  room.participants.length == 0

/-- `Room.isFull`. -/
def Room.isFull (room : Room) : Bool :=
  Room.MAX_PARTICIPANTS ≤ room.participants.length

/-- `Room.getParticipantCount`. -/
def Room.getParticipantCount (room : Room) : Nat :=
  room.participants.length

/-- The in-memory room store (src/backend/src/infrastructure/RoomRepositoryInMemory.ts):
a `Map<string, Room>` as an insertion-ordered association list. -/
abbrev RoomStore := List (String × Room)

namespace RoomRepositoryInMemory

/-- `findRoom`: `Map.get`. -/
def findRoom (store : RoomStore) (roomId : String) : Option Room :=
  store.lookup roomId

/-- `createRoom`: get-or-create; constructing a fresh `Room` can throw on an
invalid id, hence the `Except`. A fresh room is appended (`Map.set`). -/
def createRoom (store : RoomStore) (roomId : String) : Except String (Room × RoomStore) :=
  match findRoom store roomId with
  | some room => Except.ok (room, store)
  | none =>
    match mkRoom roomId with
    | Except.error e => Except.error e
    | Except.ok room => Except.ok (room, store ++ [(roomId, room)])

/-- `deleteRoom`: `Map.delete`, a no-op when absent. -/
def deleteRoom (store : RoomStore) (roomId : String) : RoomStore :=
  store.filter (fun e => !(e.1 == roomId))

/-- In-place mutation of the `Room` object aliased by the store becomes an
explicit update of the entry at the room's key. -/
def updateRoom (store : RoomStore) (roomId : String) (room : Room) : RoomStore :=
  store.map (fun e => if e.1 == roomId then (e.1, room) else e)

end RoomRepositoryInMemory

/-- Result record of `JoinRoomUseCase.execute` (src/unnamed/part_004). -/
structure JoinRoomResult where
  success : Bool
  participantId : String
  room : Room
  existingParticipants : List Participant
  error : Option String
deriving DecidableEq, Repr

namespace JoinRoomUseCase

/-- `JoinRoomUseCase.execute` (src/unnamed/part_004, lines 41-83).
Get-or-create the room; fail `Room is full (maximum 5 participants)` at
capacity; snapshot the membership before insertion; construct and insert
the participant, converting a thrown duplicate-id or invalid-id error into
a failure result via the `catch` block (which re-resolves the room handle,
finding the room already in the store). The outer `Except` is an exception
escaping `execute` itself, which happens only when the `catch` block's own
`createRoom` re-throws for an invalid room id. -/
def execute (store : RoomStore) (roomId : String) (participantId : String)
    (displayName : Option String) : Except String (JoinRoomResult × RoomStore) :=
  match RoomRepositoryInMemory.createRoom store roomId with
  | Except.error e => Except.error e
  | Except.ok (room, store1) =>
    if room.isFull then
      Except.ok ({ success := false, participantId := participantId, room := room,
                   existingParticipants := [],
                   error := some "Room is full (maximum 5 participants)" }, store1)
    else
      let existingParticipants := room.getAllParticipants
      match mkParticipant participantId displayName with
      | Except.error e =>
        Except.ok ({ success := false, participantId := participantId, room := room,
                     existingParticipants := [], error := some e }, store1)
      | Except.ok participant =>
        match room.addParticipant participant with
        | Except.error e =>
          Except.ok ({ success := false, participantId := participantId, room := room,
                       existingParticipants := [], error := some e }, store1)
        | Except.ok updated =>
          Except.ok ({ success := true, participantId := participantId, room := updated,
                       existingParticipants := existingParticipants, error := none },
                     RoomRepositoryInMemory.updateRoom store1 roomId updated)

end JoinRoomUseCase

/-- Result record of `LeaveRoomUseCase.execute`
(src/backend/src/usecases/LeaveRoomUseCase.ts). -/
structure LeaveRoomResult where
  success : Bool
  roomId : String
  participantId : String
  remainingParticipants : List Participant
  roomDeleted : Bool
  error : Option String
deriving DecidableEq, Repr

namespace LeaveRoomUseCase

/-- `LeaveRoomUseCase.execute` (src/backend/src/usecases/LeaveRoomUseCase.ts,
lines 36-81): fail `Room not found` when absent; otherwise remove the
participant (idempotent), snapshot the remaining membership, and delete the
room from the store when it became empty. Nothing in the body can throw, so
the source's `catch` branch is unreachable and the result is total. -/
def execute (store : RoomStore) (roomId : String) (participantId : String) :
    LeaveRoomResult × RoomStore :=
  match RoomRepositoryInMemory.findRoom store roomId with
  | none =>
    ({ success := false, roomId := roomId, participantId := participantId,
       remainingParticipants := [], roomDeleted := false,
       error := some "Room not found" }, store)
  | some room =>
    let updated := room.removeParticipant participantId
    let remainingParticipants := updated.getAllParticipants
    let store1 := RoomRepositoryInMemory.updateRoom store roomId updated
    if updated.isEmpty then
      ({ success := true, roomId := roomId, participantId := participantId,
         remainingParticipants := remainingParticipants, roomDeleted := true,
         error := none }, RoomRepositoryInMemory.deleteRoom store1 roomId)
    else
      ({ success := true, roomId := roomId, participantId := participantId,
         remainingParticipants := remainingParticipants, roomDeleted := false,
         error := none }, store1)

end LeaveRoomUseCase

/-- ICE candidate init dictionary (src/backend/src/domain/types/SignalingMessages.ts). -/
structure IceCandidateInit where
  candidate : Option String
  sdpMid : Option String
  sdpMLineIndex : Option Int
  usernameFragment : Option String
deriving DecidableEq, Repr

/-- Client-to-server protocol messages
(src/backend/src/domain/types/SignalingMessages.ts, `ClientMessage`). -/
inductive ClientMessage where
  | join (roomId : String) (displayName : Option String)
  | offer (toId fromId sdp : String)
  | answer (toId fromId sdp : String)
  | iceCandidate (toId fromId : String) (candidate : IceCandidateInit)
  | leave (fromId : String)
  | updateDisplayName (fromId displayName : String)
deriving DecidableEq, Repr

/-- The `to` field of the three relayable message kinds; `none` on the
other kinds (mirrors the `isOfferMessage / isAnswerMessage /
isIceCandidateMessage` guard cascade in `RelaySignalUseCase.execute`). -/
def ClientMessage.relayRecipient : ClientMessage → Option String
  | ClientMessage.offer toId _ _ => some toId
  | ClientMessage.answer toId _ _ => some toId
  | ClientMessage.iceCandidate toId _ _ => some toId
  | _ => none

/-- The `from` field of a message (empty for `join`, which carries none). -/
def ClientMessage.senderId : ClientMessage → String
  | ClientMessage.join _ _ => ""
  | ClientMessage.offer _ fromId _ => fromId
  | ClientMessage.answer _ fromId _ => fromId
  | ClientMessage.iceCandidate _ fromId _ => fromId
  | ClientMessage.leave fromId => fromId
  | ClientMessage.updateDisplayName fromId _ => fromId

/-- Result record of `RelaySignalUseCase.execute` (src/unnamed/part_004). -/
structure RelaySignalResult where
  success : Bool
  recipientId : String
  message : ClientMessage
  error : Option String
deriving DecidableEq, Repr

namespace RelaySignalUseCase

/-- `RelaySignalUseCase.execute` (src/unnamed/part_004, lines 123-207):
validate the kind (else `Invalid signaling message type`), resolve the room
(`Room not found`), check the sender (`Sender not in room`) then the
recipient (`Recipient not in room`); on success return the recipient id
and the message unchanged. The use case never mutates the store: it only
reads it (the function does not even return a store). -/
def execute (store : RoomStore) (roomId : String) (message : ClientMessage) :
    RelaySignalResult :=
  match message.relayRecipient with
  | none =>
    { success := false, recipientId := "", message := message,
      error := some "Invalid signaling message type" }
  | some recipientId =>
    match RoomRepositoryInMemory.findRoom store roomId with
    | none =>
      { success := false, recipientId := recipientId, message := message,
        error := some "Room not found" }
    | some room =>
      match room.getParticipant message.senderId with
      | none =>
        { success := false, recipientId := recipientId, message := message,
          error := some "Sender not in room" }
      | some _ =>
        match room.getParticipant recipientId with
        | none =>
          { success := false, recipientId := recipientId, message := message,
            error := some "Recipient not in room" }
        | some _ =>
          { success := true, recipientId := recipientId, message := message,
            error := none }

end RelaySignalUseCase

/-- Result record of `UpdateDisplayNameUseCase.execute`
(src/backend/src/usecases/UpdateDisplayNameUseCase.ts). -/
structure UpdateDisplayNameResult where
  success : Bool
  roomId : String
  participantId : String
  displayName : String
  error : Option String
deriving DecidableEq, Repr

/-- The in-place mutation `participant.displayName = trimmedName` on the
participant object held inside the room's map. -/
def Room.setParticipantName (room : Room) (participantId : String) (name : String) : Room :=
  { room with
    participants := room.participants.map
      (fun q => if q.id == participantId then { q with displayName := some name } else q) }

namespace UpdateDisplayNameUseCase

/-- `UpdateDisplayNameUseCase.execute`
(src/backend/src/usecases/UpdateDisplayNameUseCase.ts, lines 14-78): trim
the name; reject an empty trim (`Display name cannot be empty`) and a trim
over 50 characters (`Display name is too long (max 50 characters)`); then
resolve the room (`Room not found`) and the participant
(`Participant not found in room`); otherwise mutate the display name in
place and return the trimmed value. -/
def execute (store : RoomStore) (roomId : String) (participantId : String)
    (displayName : String) : UpdateDisplayNameResult × RoomStore :=
  let trimmedName := jsTrim displayName
  if trimmedName.length = 0 then
    ({ success := false, roomId := roomId, participantId := participantId,
       displayName := "", error := some "Display name cannot be empty" }, store)
  else if 50 < trimmedName.length then
    ({ success := false, roomId := roomId, participantId := participantId,
       displayName := "", error := some "Display name is too long (max 50 characters)" }, store)
  else
    match RoomRepositoryInMemory.findRoom store roomId with
    | none =>
      ({ success := false, roomId := roomId, participantId := participantId,
         displayName := "", error := some "Room not found" }, store)
    | some room =>
      match room.getParticipant participantId with
      | none =>
        ({ success := false, roomId := roomId, participantId := participantId,
           displayName := "", error := some "Participant not found in room" }, store)
      | some _ =>
        ({ success := true, roomId := roomId, participantId := participantId,
           displayName := trimmedName, error := none },
         RoomRepositoryInMemory.updateRoom store roomId
           (room.setParticipantName participantId trimmedName))

end UpdateDisplayNameUseCase

/-- Server-to-client protocol messages
(src/backend/src/domain/types/SignalingMessages.ts, `ServerMessage`),
restricted to the constructors the modelled controller paths emit. -/
inductive ServerMessage where
  | participantLeft (id : String)
  | errorReply (message : String)
  | forwarded (message : ClientMessage)
deriving DecidableEq, Repr

namespace SignalingController

/-- `SignalingController.handleDisconnect`
(src/backend/src/controllers/SignalingController.ts, lines 55-70): run the
leave use case with the connection's last-known room id; when it reports
success, send `participant-left` (carrying the disconnected client's id)
to every remaining participant. The returned list is the sequence of
`sendMessage(recipientId, message)` calls. -/
def handleDisconnect (store : RoomStore) (clientId : String) (roomId : String) :
    List (String × ServerMessage) × RoomStore :=
  let (result, store1) := LeaveRoomUseCase.execute store roomId clientId
  if result.success then
    (result.remainingParticipants.map
      (fun p => (p.id, ServerMessage.participantLeft clientId)), store1)
  else
    ([], store1)

end SignalingController

/-- JS `<` on strings: lexicographic comparison by code unit, embedded as
a structurally recursive Boolean on the character lists so proofs can
evaluate it. -/
def jsLtChars : List Char → List Char → Bool
  | [], [] => false
  | [], _ :: _ => true
  | _ :: _, [] => false
  | c :: cs, d :: ds =>
    if c.toNat < d.toNat then true
    else if d.toNat < c.toNat then false
    else jsLtChars cs ds

/-- JS `<` on strings, lifted to `String`. -/
def jsStringLt (a b : String) : Bool :=
  jsLtChars a.data b.data

/-- WebRTC signaling states of `RTCPeerConnection.signalingState`
(browser API consumed by src/frontend/src/infrastructure/RTCAdapter.ts). -/
inductive RTCSignalingState where
  | stable
  | haveLocalOffer
  | haveRemoteOffer
  | haveLocalPranswer
  | haveRemotePranswer
  | closed
deriving DecidableEq, Repr

/-- A session description `{ type, sdp }` as handled by the adapter. -/
structure SessionDescription where
  descType : String
  sdp : String
deriving DecidableEq, Repr

/-- The observable browser-side connection state the adapter manipulates. -/
structure RTCPeerConnection where
  signalingState : RTCSignalingState
  localDescription : Option SessionDescription
  remoteDescription : Option SessionDescription
deriving DecidableEq, Repr

/-- `setRemoteDescription({type: offer})`: per the W3C state machine the
connection records the remote offer and moves to `have-remote-offer`
(with implicit rollback of a half-completed local offer). -/
def RTCPeerConnection.setRemoteOffer (conn : RTCPeerConnection) (sdp : String) :
    RTCPeerConnection :=
  { conn with
      remoteDescription := some ({ descType := "offer", sdp := sdp } : SessionDescription)
      signalingState := RTCSignalingState.haveRemoteOffer }

/-- `setLocalDescription(answer)`: records the local answer and returns the
connection to `stable`. -/
def RTCPeerConnection.setLocalAnswer (conn : RTCPeerConnection) (sdp : String) :
    RTCPeerConnection :=
  { conn with
      localDescription := some ({ descType := "answer", sdp := sdp } : SessionDescription)
      signalingState := RTCSignalingState.stable }

/-- `setLocalDescription(offer)`: records the local offer and moves to
`have-local-offer`. -/
def RTCPeerConnection.setLocalOffer (conn : RTCPeerConnection) (sdp : String) :
    RTCPeerConnection :=
  { conn with
      localDescription := some ({ descType := "offer", sdp := sdp } : SessionDescription)
      signalingState := RTCSignalingState.haveLocalOffer }

/-- Per-peer session state of the adapter
(src/frontend/src/infrastructure/RTCAdapter.ts, `PeerConnectionState`). -/
structure PeerConnectionState where
  connection : RTCPeerConnection
  makingOffer : Bool
  ignoreOffer : Bool
  isSettingRemoteAnswerPending : Bool
deriving DecidableEq, Repr

namespace RTCAdapter

/-- `this.localParticipantId ? this.localParticipantId < peerId : false`:
the truthiness test makes a `null` (and also an empty-string) local id
impolite; otherwise politeness is the lexicographic `<` on the ids
(`jsStringLt`). -/
def isPolite (localParticipantId : Option String) (peerId : String) : Bool :=
  match localParticipantId with
  | none => false
  | some l => if l = "" then false else jsStringLt l peerId

/-- `state.makingOffer || state.connection.signalingState !== 'stable'`. -/
def offerCollision (st : PeerConnectionState) : Bool :=
  st.makingOffer || !(st.connection.signalingState == RTCSignalingState.stable)

/-- `RTCAdapter.handleOffer` (src/frontend/src/infrastructure/RTCAdapter.ts,
lines 177-213): compute the collision flag, set
`ignoreOffer = !isPolite && offerCollision`; when ignoring, return the
empty string leaving the connection untouched; otherwise apply the remote
offer, create an answer (`answerSdp` is the browser's `createAnswer`
output, an environment input), apply it locally, and return it. -/
def handleOffer (localParticipantId : Option String) (peerId : String)
    (st : PeerConnectionState) (sdp : String) (answerSdp : String) :
    String × PeerConnectionState :=
  let ignore := !(isPolite localParticipantId peerId) && offerCollision st
  let st1 := { st with ignoreOffer := ignore }
  if ignore then
    ("", st1)
  else
    let conn1 := st1.connection.setRemoteOffer sdp
    let conn2 := conn1.setLocalAnswer answerSdp
    (answerSdp, { st1 with connection := conn2 })

/-- `RTCAdapter.createOffer` (src/frontend/src/infrastructure/RTCAdapter.ts,
lines 149-168): set `makingOffer`, ask the browser for an offer
(`offerResult` models the browser's `createOffer` / `setLocalDescription`
outcome: `Except.error` is a thrown browser error), apply it locally and
return its sdp; the `finally` clears `makingOffer` on both completion and
failure. There is no negotiation guard of any kind before the attempt. -/
def createOffer (st : PeerConnectionState) (offerResult : Except String String) :
    Except String String × PeerConnectionState :=
  match offerResult with
  | Except.error e => (Except.error e, { st with makingOffer := false })
  | Except.ok sdp =>
    (Except.ok sdp,
     { st with connection := st.connection.setLocalOffer sdp, makingOffer := false })

end RTCAdapter

/-! ## Helper lemmas about the store and room operations -/

/-- After `deleteRoom`, the deleted id is no longer findable. -/
theorem findRoom_deleteRoom_self (store : RoomStore) (roomId : String) :
    RoomRepositoryInMemory.findRoom (RoomRepositoryInMemory.deleteRoom store roomId) roomId =
      none := by
  induction store with
  | nil => rfl
  | cons e t ih =>
    obtain ⟨k, r⟩ := e
    unfold RoomRepositoryInMemory.findRoom RoomRepositoryInMemory.deleteRoom at ih ⊢
    rw [List.filter_cons]
    cases hkb : (k == roomId) with
    | true => simpa using ih
    | false =>
      have hne : (roomId == k) = false := by
        simp only [beq_eq_false_iff_ne] at hkb ⊢
        exact Ne.symm hkb
      simpa [List.lookup, hne] using ih

/-- `updateRoom` rewrites exactly the entry at the given id. -/
theorem findRoom_updateRoom_self (store : RoomStore) (roomId : String) (room : Room) :
    RoomRepositoryInMemory.findRoom (RoomRepositoryInMemory.updateRoom store roomId room) roomId =
      (RoomRepositoryInMemory.findRoom store roomId).map (fun _ => room) := by
  induction store with
  | nil => rfl
  | cons e t ih =>
    obtain ⟨k, r⟩ := e
    unfold RoomRepositoryInMemory.findRoom RoomRepositoryInMemory.updateRoom at ih ⊢
    rw [List.map_cons]
    cases hkb : (k == roomId) with
    | true =>
      have hk : k = roomId := by simpa [beq_iff_eq] using hkb
      subst hk
      simp [List.lookup, hkb]
    | false =>
      have hne : (roomId == k) = false := by
        simp only [beq_eq_false_iff_ne] at hkb ⊢
        exact Ne.symm hkb
      simpa [List.lookup, hkb, hne] using ih

/-- Removing an id that is not a member leaves the membership untouched. -/
theorem removeParticipant_not_mem (room : Room) (pid : String)
    (h : ∀ q ∈ room.participants, q.id ≠ pid) :
    (room.removeParticipant pid).participants = room.participants := by
  unfold Room.removeParticipant
  simp only
  rw [List.filter_eq_self]
  intro q hq
  simp [h q hq]

/-- `setParticipantName` only changes the display name at the targeted id. -/
theorem getParticipant_setParticipantName (room : Room) (pid name : String) :
    (room.setParticipantName pid name).getParticipant pid =
      (room.getParticipant pid).map (fun q => { q with displayName := some name }) := by
  unfold Room.setParticipantName Room.getParticipant
  simp only
  induction room.participants with
  | nil => rfl
  | cons q t ih =>
    rw [List.map_cons]
    cases hqb : (q.id == pid) with
    | true =>
      have hq : q.id = pid := by simpa [beq_iff_eq] using hqb
      rw [List.find?_cons, List.find?_cons]
      simp only [hqb, if_pos rfl]
      simp [hq]
    | false =>
      rw [List.find?_cons, List.find?_cons]
      simp only [hqb, Bool.false_eq_true, if_neg]
      simpa [hqb] using ih

/-! ## Claim theorems -/

/-- C8: round trip — for every participant constructed through the
validating constructor (every participant has a non-empty id by that
invariant), serializing with `toJSON` and reconstructing with `fromJSON`
yields a participant descriptor with an equal `(id, displayName)` pair. -/
theorem C8_participant_roundtrip (id : String) (dn : Option String) (p : Participant)
    (h : mkParticipant id dn = Except.ok p) :
    Participant.fromJSON (Participant.toJSON p) = Except.ok p ∧
    Participant.toJSON p = (id, dn) := by
  unfold mkParticipant at h
  split at h
  · exact absurd h (by simp)
  · rename_i hcond
    simp only [Except.ok.injEq] at h
    subst h
    refine ⟨?_, rfl⟩
    unfold Participant.fromJSON Participant.toJSON mkParticipant
    simp only
    rw [if_neg hcond]

/-- C8 witness: the round trip at the concrete participant `u1`/`Alice`. -/
theorem C8_participant_roundtrip_witness :
    Participant.fromJSON
        (Participant.toJSON { id := "u1", displayName := some "Alice" }) =
      Except.ok { id := "u1", displayName := some "Alice" } :=
  (C8_participant_roundtrip "u1" (some "Alice")
    { id := "u1", displayName := some "Alice" } (by simp [mkParticipant]; decide)).1

/-- C1: room membership never exceeds 5 — every successful
`Room.addParticipant` yields at most 5 members (it refuses at capacity),
`Room.removeParticipant` cannot grow a room past 5, and a join against a
room already holding 5 participants fails with the `RoomFull` error while
leaving the store (hence that room's membership) exactly as it was. -/
theorem C1_capacity_invariant :
    (∀ (room : Room) (p : Participant) (updated : Room),
       room.addParticipant p = Except.ok updated →
       updated.getParticipantCount ≤ 5) ∧
    (∀ (room : Room) (pid : String),
       room.getParticipantCount ≤ 5 →
       (room.removeParticipant pid).getParticipantCount ≤ 5) ∧
    (∀ (store : RoomStore) (roomId pid : String) (dn : Option String) (room : Room),
       RoomRepositoryInMemory.findRoom store roomId = some room →
       room.getParticipantCount = 5 →
       JoinRoomUseCase.execute store roomId pid dn =
         Except.ok ({ success := false, participantId := pid, room := room,
                      existingParticipants := [],
                      error := some "Room is full (maximum 5 participants)" }, store)) := by
  refine ⟨?_, ?_, ?_⟩
  · intro room p updated h
    unfold Room.addParticipant at h
    split at h
    · exact absurd h (by simp)
    · split at h
      · exact absurd h (by simp)
      · rename_i hnotfull
        simp only [Except.ok.injEq] at h
        subst h
        unfold Room.getParticipantCount at *
        unfold Room.MAX_PARTICIPANTS at hnotfull
        simp only [List.length_append, List.length_cons, List.length_nil]
        omega
  · intro room pid h
    unfold Room.getParticipantCount Room.removeParticipant at *
    simp only
    exact le_trans (List.length_filter_le _ _) h
  · intro store roomId pid dn room hfind hcount
    unfold JoinRoomUseCase.execute RoomRepositoryInMemory.createRoom
    rw [hfind]
    have hfull : room.isFull = true := by
      unfold Room.isFull Room.MAX_PARTICIPANTS
      unfold Room.getParticipantCount at hcount
      simp [hcount]
    simp [hfull]

/-- C1 witness: the 6th sequential join to a fresh room — five joins
succeed, the 6th fails `RoomFull` with the room still at size 5 and its
membership untouched. -/
theorem C1_capacity_invariant_witness :
    JoinRoomUseCase.execute
        [("R1", { id := "R1",
                  participants := [{ id := "u1", displayName := none },
                                   { id := "u2", displayName := none },
                                   { id := "u3", displayName := none },
                                   { id := "u4", displayName := none },
                                   { id := "u5", displayName := none }] })]
        "R1" "u6" none =
      Except.ok
        ({ success := false, participantId := "u6",
           room := { id := "R1",
                     participants := [{ id := "u1", displayName := none },
                                      { id := "u2", displayName := none },
                                      { id := "u3", displayName := none },
                                      { id := "u4", displayName := none },
                                      { id := "u5", displayName := none }] },
           existingParticipants := [],
           error := some "Room is full (maximum 5 participants)" },
         [("R1", { id := "R1",
                   participants := [{ id := "u1", displayName := none },
                                    { id := "u2", displayName := none },
                                    { id := "u3", displayName := none },
                                    { id := "u4", displayName := none },
                                    { id := "u5", displayName := none }] })]) :=
  C1_capacity_invariant.2.2
    [("R1", { id := "R1",
              participants := [{ id := "u1", displayName := none },
                               { id := "u2", displayName := none },
                               { id := "u3", displayName := none },
                               { id := "u4", displayName := none },
                               { id := "u5", displayName := none }] })]
    "R1" "u6" none
    { id := "R1",
      participants := [{ id := "u1", displayName := none },
                       { id := "u2", displayName := none },
                       { id := "u3", displayName := none },
                       { id := "u4", displayName := none },
                       { id := "u5", displayName := none }] }
    (by decide) (by decide)

/-- C6: joining a room that is not at capacity with an id already present
fails with the `DuplicateParticipant` error as a failure result (the thrown
entity error is caught and reported, not fatal), leaving the store — hence
the room's membership — unchanged; with a fresh id the join succeeds and
returns the snapshot of the membership captured strictly before the
insertion. (`(jsTrim pid).length ≠ 0` is the participant-id validity
invariant: ids are assigned by the gateway and are never blank.) -/
theorem C6_join_duplicate_or_snapshot
    (store : RoomStore) (roomId pid : String) (dn : Option String) (room : Room)
    (hfind : RoomRepositoryInMemory.findRoom store roomId = some room)
    (hnotfull : room.isFull = false)
    (hpid : (jsTrim pid).length ≠ 0) :
    (room.participants.any (fun q => q.id == pid) = true →
       JoinRoomUseCase.execute store roomId pid dn =
         Except.ok ({ success := false, participantId := pid, room := room,
                      existingParticipants := [],
                      error := some ("Participant " ++ pid ++ " already in room") },
                    store)) ∧
    (room.participants.any (fun q => q.id == pid) = false →
       JoinRoomUseCase.execute store roomId pid dn =
         Except.ok ({ success := true, participantId := pid,
                      room := { room with
                                participants := room.participants ++
                                  [{ id := pid, displayName := dn }] },
                      existingParticipants := room.participants,
                      error := none },
                    RoomRepositoryInMemory.updateRoom store roomId
                      { room with
                        participants := room.participants ++
                          [{ id := pid, displayName := dn }] })) := by
  have hne : pid ≠ "" := by
    intro h
    subst h
    exact hpid rfl
  have hfull : ¬ (Room.MAX_PARTICIPANTS ≤ room.participants.length) := by
    unfold Room.isFull at hnotfull
    simpa using hnotfull
  constructor
  · intro hdup
    unfold JoinRoomUseCase.execute RoomRepositoryInMemory.createRoom
    rw [hfind]
    simp only [hnotfull, Bool.false_eq_true, if_false]
    unfold mkParticipant
    rw [if_neg (by simp [hne, hpid])]
    simp [Room.addParticipant, hdup]
  · intro hnodup
    unfold JoinRoomUseCase.execute RoomRepositoryInMemory.createRoom
    rw [hfind]
    simp only [hnotfull, Bool.false_eq_true, if_false]
    unfold mkParticipant
    rw [if_neg (by simp [hne, hpid])]
    simp [Room.addParticipant, hnodup, hfull, Room.getAllParticipants]

/-- C6 witness: in a two-member room, re-joining as `u1` fails with the
duplicate error and an unchanged store, while joining as `u3` succeeds
with the pre-insertion snapshot. -/
theorem C6_join_duplicate_or_snapshot_witness :
    JoinRoomUseCase.execute
        [("R1", { id := "R1",
                  participants := [{ id := "u1", displayName := none },
                                   { id := "u2", displayName := none }] })]
        "R1" "u1" none =
      Except.ok ({ success := false, participantId := "u1",
                   room := { id := "R1",
                             participants := [{ id := "u1", displayName := none },
                                              { id := "u2", displayName := none }] },
                   existingParticipants := [],
                   error := some "Participant u1 already in room" },
                 [("R1", { id := "R1",
                           participants := [{ id := "u1", displayName := none },
                                            { id := "u2", displayName := none }] })]) :=
  (C6_join_duplicate_or_snapshot
    [("R1", { id := "R1",
              participants := [{ id := "u1", displayName := none },
                               { id := "u2", displayName := none }] })]
    "R1" "u1" none
    { id := "R1",
      participants := [{ id := "u1", displayName := none },
                       { id := "u2", displayName := none }] }
    (by decide) (by decide) (by decide)).1 (by decide)

/-- C9 (implicit): the join use case checks capacity before the entity's
duplicate check, so joining a full room with an id that is already a
member still fails with the `RoomFull` error, not `DuplicateParticipant`. -/
theorem C9_full_room_duplicate_reports_full
    (store : RoomStore) (roomId pid : String) (dn : Option String) (room : Room)
    (hfind : RoomRepositoryInMemory.findRoom store roomId = some room)
    (hcount : room.getParticipantCount = 5)
    (hdup : room.participants.any (fun q => q.id == pid) = true) :
    JoinRoomUseCase.execute store roomId pid dn =
      Except.ok ({ success := false, participantId := pid, room := room,
                   existingParticipants := [],
                   error := some "Room is full (maximum 5 participants)" }, store) :=
  C1_capacity_invariant.2.2 store roomId pid dn room hfind hcount

/-- C9 witness: a full five-member room re-joined by member `u1` reports
the room-full error, not the duplicate error. -/
theorem C9_full_room_duplicate_reports_full_witness :
    JoinRoomUseCase.execute
        [("R1", { id := "R1",
                  participants := [{ id := "u1", displayName := none },
                                   { id := "u2", displayName := none },
                                   { id := "u3", displayName := none },
                                   { id := "u4", displayName := none },
                                   { id := "u5", displayName := none }] })]
        "R1" "u1" none =
      Except.ok
        ({ success := false, participantId := "u1",
           room := { id := "R1",
                     participants := [{ id := "u1", displayName := none },
                                      { id := "u2", displayName := none },
                                      { id := "u3", displayName := none },
                                      { id := "u4", displayName := none },
                                      { id := "u5", displayName := none }] },
           existingParticipants := [],
           error := some "Room is full (maximum 5 participants)" },
         [("R1", { id := "R1",
                   participants := [{ id := "u1", displayName := none },
                                    { id := "u2", displayName := none },
                                    { id := "u3", displayName := none },
                                    { id := "u4", displayName := none },
                                    { id := "u5", displayName := none }] })]) :=
  C9_full_room_duplicate_reports_full
    [("R1", { id := "R1",
              participants := [{ id := "u1", displayName := none },
                               { id := "u2", displayName := none },
                               { id := "u3", displayName := none },
                               { id := "u4", displayName := none },
                               { id := "u5", displayName := none }] })]
    "R1" "u1" none
    { id := "R1",
      participants := [{ id := "u1", displayName := none },
                       { id := "u2", displayName := none },
                       { id := "u3", displayName := none },
                       { id := "u4", displayName := none },
                       { id := "u5", displayName := none }] }
    (by decide) (by decide) (by decide)

/-- C4: for every room id and relayable message (offer / answer /
ice-candidate), relay succeeds iff the room exists and both `from` and `to`
are current members; failures report the first failing check in the order
invalid-kind, room-not-found, sender-not-in-room, recipient-not-in-room;
success returns the resolved recipient and the message unchanged. The use
case reads the store and returns only a result record, so no room state is
mutated on any path. -/
theorem C4_relay_authorization :
    (∀ (store : RoomStore) (roomId : String) (msg : ClientMessage) (toId : String),
       msg.relayRecipient = some toId →
       ((RelaySignalUseCase.execute store roomId msg).success = true ↔
          ∃ room, RoomRepositoryInMemory.findRoom store roomId = some room ∧
            room.getParticipant msg.senderId ≠ none ∧
            room.getParticipant toId ≠ none) ∧
       (RoomRepositoryInMemory.findRoom store roomId = none →
          RelaySignalUseCase.execute store roomId msg =
            { success := false, recipientId := toId, message := msg,
              error := some "Room not found" }) ∧
       (∀ room, RoomRepositoryInMemory.findRoom store roomId = some room →
          room.getParticipant msg.senderId = none →
          RelaySignalUseCase.execute store roomId msg =
            { success := false, recipientId := toId, message := msg,
              error := some "Sender not in room" }) ∧
       (∀ room, RoomRepositoryInMemory.findRoom store roomId = some room →
          room.getParticipant msg.senderId ≠ none →
          room.getParticipant toId = none →
          RelaySignalUseCase.execute store roomId msg =
            { success := false, recipientId := toId, message := msg,
              error := some "Recipient not in room" }) ∧
       (∀ room, RoomRepositoryInMemory.findRoom store roomId = some room →
          room.getParticipant msg.senderId ≠ none →
          room.getParticipant toId ≠ none →
          RelaySignalUseCase.execute store roomId msg =
            { success := true, recipientId := toId, message := msg,
              error := none })) ∧
    (∀ (store : RoomStore) (roomId : String) (msg : ClientMessage),
       msg.relayRecipient = none →
       RelaySignalUseCase.execute store roomId msg =
         { success := false, recipientId := "", message := msg,
           error := some "Invalid signaling message type" }) := by
  constructor
  · intro store roomId msg toId hto
    unfold RelaySignalUseCase.execute
    rw [hto]
    refine ⟨?_, ?_, ?_, ?_, ?_⟩
    · cases hroom : RoomRepositoryInMemory.findRoom store roomId with
      | none => simp [hroom]
      | some room =>
        cases hs : room.getParticipant msg.senderId with
        | none => simp [hroom, hs]
        | some sender =>
          cases hr : room.getParticipant toId with
          | none => simp [hroom, hs, hr]
          | some recipient => simp [hroom, hs, hr]
    · intro hroom
      simp [hroom]
    · intro room hroom hs
      simp [hroom, hs]
    · intro room hroom hs hr
      cases hsv : room.getParticipant msg.senderId with
      | none => exact absurd hsv hs
      | some sender => simp [hroom, hsv, hr]
    · intro room hroom hs hr
      cases hsv : room.getParticipant msg.senderId with
      | none => exact absurd hsv hs
      | some sender =>
        cases hrv : room.getParticipant toId with
        | none => exact absurd hrv hr
        | some recipient => simp [hroom, hsv, hrv]
  · intro store roomId msg hto
    unfold RelaySignalUseCase.execute
    rw [hto]

/-- C4 witness: an offer from `u1` to `u3` in a room containing only
`u1, u2` fails `Recipient not in room`; the same offer to `u2` succeeds
with the message unchanged; a `leave` message is rejected as invalid. -/
theorem C4_relay_authorization_witness :
    RelaySignalUseCase.execute
        [("R1", { id := "R1",
                  participants := [{ id := "u1", displayName := none },
                                   { id := "u2", displayName := none }] })]
        "R1" (ClientMessage.offer "u3" "u1" "sdp1") =
      { success := false, recipientId := "u3",
        message := ClientMessage.offer "u3" "u1" "sdp1",
        error := some "Recipient not in room" } ∧
    RelaySignalUseCase.execute
        [("R1", { id := "R1",
                  participants := [{ id := "u1", displayName := none },
                                   { id := "u2", displayName := none }] })]
        "R1" (ClientMessage.offer "u2" "u1" "sdp1") =
      { success := true, recipientId := "u2",
        message := ClientMessage.offer "u2" "u1" "sdp1", error := none } ∧
    RelaySignalUseCase.execute
        [("R1", { id := "R1",
                  participants := [{ id := "u1", displayName := none },
                                   { id := "u2", displayName := none }] })]
        "R1" (ClientMessage.leave "u1") =
      { success := false, recipientId := "",
        message := ClientMessage.leave "u1",
        error := some "Invalid signaling message type" } :=
  ⟨((C4_relay_authorization.1
      [("R1", { id := "R1",
                participants := [{ id := "u1", displayName := none },
                                 { id := "u2", displayName := none }] })]
      "R1" (ClientMessage.offer "u3" "u1" "sdp1") "u3" (by decide)).2.2.2.1
      { id := "R1",
        participants := [{ id := "u1", displayName := none },
                         { id := "u2", displayName := none }] }
      (by decide) (by decide) (by decide)),
   ((C4_relay_authorization.1
      [("R1", { id := "R1",
                participants := [{ id := "u1", displayName := none },
                                 { id := "u2", displayName := none }] })]
      "R1" (ClientMessage.offer "u2" "u1" "sdp1") "u2" (by decide)).2.2.2.2
      { id := "R1",
        participants := [{ id := "u1", displayName := none },
                         { id := "u2", displayName := none }] }
      (by decide) (by decide) (by decide)),
   (C4_relay_authorization.2
      [("R1", { id := "R1",
                participants := [{ id := "u1", displayName := none },
                                 { id := "u2", displayName := none }] })]
      "R1" (ClientMessage.leave "u1") (by decide))⟩

/-- C5: leaving a nonexistent room fails `RoomNotFound` with the store
unchanged; leaving an existing room always succeeds, removal is an
idempotent no-op for an absent participant, the result carries the
remaining-membership snapshot, and `roomDeleted = true` together with the
room no longer being findable holds exactly when the removal left the
room empty (otherwise the room stays findable with the updated
membership). -/
theorem C5_leave_cleanup (store : RoomStore) (roomId pid : String) :
    (RoomRepositoryInMemory.findRoom store roomId = none →
       LeaveRoomUseCase.execute store roomId pid =
         ({ success := false, roomId := roomId, participantId := pid,
            remainingParticipants := [], roomDeleted := false,
            error := some "Room not found" }, store)) ∧
    (∀ room, RoomRepositoryInMemory.findRoom store roomId = some room →
       (LeaveRoomUseCase.execute store roomId pid).1.success = true ∧
       (LeaveRoomUseCase.execute store roomId pid).1.remainingParticipants =
         (room.removeParticipant pid).participants ∧
       ((∀ q ∈ room.participants, q.id ≠ pid) →
          (LeaveRoomUseCase.execute store roomId pid).1.remainingParticipants =
            room.participants) ∧
       (((LeaveRoomUseCase.execute store roomId pid).1.roomDeleted = true ∧
          RoomRepositoryInMemory.findRoom
            (LeaveRoomUseCase.execute store roomId pid).2 roomId = none) ↔
         (room.removeParticipant pid).participants = []) ∧
       ((LeaveRoomUseCase.execute store roomId pid).1.roomDeleted = false →
          RoomRepositoryInMemory.findRoom
            (LeaveRoomUseCase.execute store roomId pid).2 roomId =
            some (room.removeParticipant pid))) := by
  constructor
  · intro h
    simp [LeaveRoomUseCase.execute, h]
  · intro room hroom
    cases he : (room.removeParticipant pid).isEmpty with
    | true =>
      have hnil : (room.removeParticipant pid).participants = [] := by
        unfold Room.isEmpty at he
        simpa using he
      refine ⟨?_, ?_, ?_, ?_, ?_⟩
      · simp [LeaveRoomUseCase.execute, hroom, he]
      · simp [LeaveRoomUseCase.execute, hroom, he, Room.getAllParticipants]
      · intro hq
        have hkeep := removeParticipant_not_mem room pid hq
        simp [LeaveRoomUseCase.execute, hroom, he, Room.getAllParticipants, hkeep]
      · simp [LeaveRoomUseCase.execute, hroom, he, findRoom_deleteRoom_self, hnil]
      · simp [LeaveRoomUseCase.execute, hroom, he]
    | false =>
      have hne : (room.removeParticipant pid).participants ≠ [] := by
        unfold Room.isEmpty at he
        simpa using he
      refine ⟨?_, ?_, ?_, ?_, ?_⟩
      · simp [LeaveRoomUseCase.execute, hroom, he]
      · simp [LeaveRoomUseCase.execute, hroom, he, Room.getAllParticipants]
      · intro hq
        have hkeep := removeParticipant_not_mem room pid hq
        simp [LeaveRoomUseCase.execute, hroom, he, Room.getAllParticipants, hkeep]
      · simp [LeaveRoomUseCase.execute, hroom, he, hne]
      · simp [LeaveRoomUseCase.execute, hroom, he, findRoom_updateRoom_self]

/-- C5 witness: leaving an unknown room fails `RoomNotFound`; `u1` leaving
the two-member room `R1` keeps the room findable with `[u2]`; `u2` then
leaving empties and deletes it. -/
theorem C5_leave_cleanup_witness :
    LeaveRoomUseCase.execute [] "R9" "u1" =
      ({ success := false, roomId := "R9", participantId := "u1",
         remainingParticipants := [], roomDeleted := false,
         error := some "Room not found" }, []) ∧
    (LeaveRoomUseCase.execute
        [("R1", { id := "R1",
                  participants := [{ id := "u1", displayName := none },
                                   { id := "u2", displayName := none }] })]
        "R1" "u1").1.remainingParticipants = [{ id := "u2", displayName := none }] ∧
    ((LeaveRoomUseCase.execute
        [("R1", { id := "R1",
                  participants := [{ id := "u2", displayName := none }] })]
        "R1" "u2").1.roomDeleted = true ∧
     RoomRepositoryInMemory.findRoom
       (LeaveRoomUseCase.execute
         [("R1", { id := "R1",
                   participants := [{ id := "u2", displayName := none }] })]
         "R1" "u2").2 "R1" = none) :=
  ⟨(C5_leave_cleanup [] "R9" "u1").1 (by decide),
   by
     have h := ((C5_leave_cleanup
       [("R1", { id := "R1",
                 participants := [{ id := "u1", displayName := none },
                                  { id := "u2", displayName := none }] })]
       "R1" "u1").2
       { id := "R1",
         participants := [{ id := "u1", displayName := none },
                          { id := "u2", displayName := none }] } (by decide)).2.1
     rw [h]
     decide,
   ((C5_leave_cleanup
       [("R1", { id := "R1",
                 participants := [{ id := "u2", displayName := none }] })]
       "R1" "u2").2
       { id := "R1", participants := [{ id := "u2", displayName := none }] }
       (by decide)).2.2.2.1.mpr (by decide)⟩

/-- C7: the display-name update trims its input; an empty trim fails
`EmptyName`, a trim over 50 characters fails `NameTooLong` (so a
50-character trimmed name passes the length checks), an absent room fails
`RoomNotFound`, an absent participant fails `ParticipantNotFound` — each
failure leaving the store unchanged — and on success the participant's
display name is set in place to the trimmed value, which the result also
carries. -/
theorem C7_update_display_name (store : RoomStore) (roomId pid name : String) :
    ((jsTrim name).length = 0 →
       UpdateDisplayNameUseCase.execute store roomId pid name =
         ({ success := false, roomId := roomId, participantId := pid,
            displayName := "", error := some "Display name cannot be empty" }, store)) ∧
    ((jsTrim name).length ≠ 0 → 50 < (jsTrim name).length →
       UpdateDisplayNameUseCase.execute store roomId pid name =
         ({ success := false, roomId := roomId, participantId := pid,
            displayName := "",
            error := some "Display name is too long (max 50 characters)" }, store)) ∧
    ((jsTrim name).length ≠ 0 → (jsTrim name).length ≤ 50 →
       RoomRepositoryInMemory.findRoom store roomId = none →
       UpdateDisplayNameUseCase.execute store roomId pid name =
         ({ success := false, roomId := roomId, participantId := pid,
            displayName := "", error := some "Room not found" }, store)) ∧
    (∀ room, (jsTrim name).length ≠ 0 → (jsTrim name).length ≤ 50 →
       RoomRepositoryInMemory.findRoom store roomId = some room →
       room.getParticipant pid = none →
       UpdateDisplayNameUseCase.execute store roomId pid name =
         ({ success := false, roomId := roomId, participantId := pid,
            displayName := "",
            error := some "Participant not found in room" }, store)) ∧
    (∀ room q, (jsTrim name).length ≠ 0 → (jsTrim name).length ≤ 50 →
       RoomRepositoryInMemory.findRoom store roomId = some room →
       room.getParticipant pid = some q →
       UpdateDisplayNameUseCase.execute store roomId pid name =
         ({ success := true, roomId := roomId, participantId := pid,
            displayName := jsTrim name, error := none },
          RoomRepositoryInMemory.updateRoom store roomId
            (room.setParticipantName pid (jsTrim name))) ∧
       (room.setParticipantName pid (jsTrim name)).getParticipant pid =
         some { q with displayName := some (jsTrim name) }) := by
  refine ⟨?_, ?_, ?_, ?_, ?_⟩
  · intro h0
    simp [UpdateDisplayNameUseCase.execute, h0]
  · intro h0 h50
    have h50x : ¬ (jsTrim name).length ≤ 50 := by omega
    simp [UpdateDisplayNameUseCase.execute, h0, h50, h50x]
  · intro h0 h50 hroom
    simp [UpdateDisplayNameUseCase.execute, h0, h50, hroom]
  · intro room h0 h50 hroom hp
    simp [UpdateDisplayNameUseCase.execute, h0, h50, hroom, hp]
  · intro room q h0 h50 hroom hp
    constructor
    · simp [UpdateDisplayNameUseCase.execute, h0, h50, hroom, hp]
    · rw [getParticipant_setParticipantName, hp]
      rfl

/-- C7 witness: `"  Alice  "` trims to `Alice` and is applied in place;
a blank name and a 51-character name are rejected; a 50-character trimmed
name succeeds. -/
theorem C7_update_display_name_witness :
    UpdateDisplayNameUseCase.execute
        [("R1", { id := "R1", participants := [{ id := "u1", displayName := none }] })]
        "R1" "u1" "  Alice  " =
      ({ success := true, roomId := "R1", participantId := "u1",
         displayName := "Alice", error := none },
       [("R1", { id := "R1",
                 participants := [{ id := "u1", displayName := some "Alice" }] })]) ∧
    UpdateDisplayNameUseCase.execute
        [("R1", { id := "R1", participants := [{ id := "u1", displayName := none }] })]
        "R1" "u1" "   " =
      ({ success := false, roomId := "R1", participantId := "u1",
         displayName := "", error := some "Display name cannot be empty" },
       [("R1", { id := "R1", participants := [{ id := "u1", displayName := none }] })]) ∧
    UpdateDisplayNameUseCase.execute
        [("R1", { id := "R1", participants := [{ id := "u1", displayName := none }] })]
        "R1" "u1"
        "123456789012345678901234567890123456789012345678901" =
      ({ success := false, roomId := "R1", participantId := "u1",
         displayName := "",
         error := some "Display name is too long (max 50 characters)" },
       [("R1", { id := "R1", participants := [{ id := "u1", displayName := none }] })]) ∧
    (UpdateDisplayNameUseCase.execute
        [("R1", { id := "R1", participants := [{ id := "u1", displayName := none }] })]
        "R1" "u1"
        "12345678901234567890123456789012345678901234567890").1.success = true :=
  ⟨by
     have h := ((C7_update_display_name
       [("R1", { id := "R1", participants := [{ id := "u1", displayName := none }] })]
       "R1" "u1" "  Alice  ").2.2.2.2
       { id := "R1", participants := [{ id := "u1", displayName := none }] }
       { id := "u1", displayName := none }
       (by decide) (by decide) (by decide) (by decide)).1
     rw [h]
     decide,
   (C7_update_display_name
       [("R1", { id := "R1", participants := [{ id := "u1", displayName := none }] })]
       "R1" "u1" "   ").1 (by decide),
   (C7_update_display_name
       [("R1", { id := "R1", participants := [{ id := "u1", displayName := none }] })]
       "R1" "u1" "123456789012345678901234567890123456789012345678901").2.1
     (by decide) (by decide),
   by
     have h := ((C7_update_display_name
       [("R1", { id := "R1", participants := [{ id := "u1", displayName := none }] })]
       "R1" "u1" "12345678901234567890123456789012345678901234567890").2.2.2.2
       { id := "R1", participants := [{ id := "u1", displayName := none }] }
       { id := "u1", displayName := none }
       (by decide) (by decide) (by decide) (by decide)).1
     rw [h]⟩

/-- C10 (implicit): when a client id that is not a member of an existing,
non-empty room is disconnected with that room as its last-known room, the
leave still succeeds (removal of an absent participant is a successful
no-op) and the controller sends a `participant-left` message carrying that
client id to every current member of the room. -/
theorem C10_disconnect_nonmember (store : RoomStore) (roomId clientId : String)
    (room : Room)
    (hroom : RoomRepositoryInMemory.findRoom store roomId = some room)
    (hne : room.participants ≠ [])
    (hnm : ∀ q ∈ room.participants, q.id ≠ clientId) :
    (LeaveRoomUseCase.execute store roomId clientId).1.success = true ∧
    (SignalingController.handleDisconnect store clientId roomId).1 =
      room.participants.map (fun p => (p.id, ServerMessage.participantLeft clientId)) := by
  have hkeep := removeParticipant_not_mem room clientId hnm
  have hempty : (room.removeParticipant clientId).isEmpty = false := by
    unfold Room.isEmpty
    simp [hkeep, hne]
  constructor
  · simp [LeaveRoomUseCase.execute, hroom, hempty]
  · unfold SignalingController.handleDisconnect
    simp [LeaveRoomUseCase.execute, hroom, hempty, Room.getAllParticipants, hkeep]

/-- C10 witness: disconnecting the non-member `u9` from the two-member
room `R1` notifies both members that `u9` left. -/
theorem C10_disconnect_nonmember_witness :
    (SignalingController.handleDisconnect
        [("R1", { id := "R1",
                  participants := [{ id := "u1", displayName := none },
                                   { id := "u2", displayName := none }] })]
        "u9" "R1").1 =
      [("u1", ServerMessage.participantLeft "u9"),
       ("u2", ServerMessage.participantLeft "u9")] :=
  (C10_disconnect_nonmember
    [("R1", { id := "R1",
              participants := [{ id := "u1", displayName := none },
                               { id := "u2", displayName := none }] })]
    "R1" "u9"
    { id := "R1",
      participants := [{ id := "u1", displayName := none },
                       { id := "u2", displayName := none }] }
    (by decide) (by decide) (by decide)).2

/-- Strict asymmetry of the lexicographic character order: at most one of
`xs < ys` and `ys < xs` holds. -/
theorem jsLtChars_asymm : ∀ xs ys, jsLtChars xs ys = true → jsLtChars ys xs = false := by
  intro xs
  induction xs with
  | nil =>
    intro ys h
    cases ys with
    | nil => simp [jsLtChars] at h
    | cons d ds => simp [jsLtChars]
  | cons c cs ih =>
    intro ys h
    cases ys with
    | nil => simp [jsLtChars] at h
    | cons d ds =>
      by_cases h1 : c.toNat < d.toNat
      · have h2 : ¬ d.toNat < c.toNat := by omega
        simp [jsLtChars, h1, h2]
      · by_cases h2 : d.toNat < c.toNat
        · simp [jsLtChars, h1, h2] at h
        · simp [jsLtChars, h1, h2] at h ⊢
          exact ih ds h

/-- Asymmetry lifted to `jsStringLt`. -/
theorem jsStringLt_asymm (a b : String) (h : jsStringLt a b = true) :
    jsStringLt b a = false :=
  jsLtChars_asymm a.data b.data h

/-- C2: glare resolution is deterministic by lexicographic id order. For a
local peer with a (non-empty, gateway-assigned) id, `handleOffer` sets
`ignoreOffer = collision AND NOT (localId < peerId)` (with `<` the
lexicographic `jsStringLt`); and for every pair of distinct ids with
`a < b` where both sides are in collision
(`makingOffer OR signalingState != stable`), the polite side `a` applies
the remote offer and returns the answer while the impolite side `b`
returns empty and keeps its own offer untouched — exactly one side of the
pair yields. -/
theorem C2_glare_resolution :
    (∀ (localId peerId : String) (st : PeerConnectionState) (sdp answerSdp : String),
       localId ≠ "" →
       (RTCAdapter.handleOffer (some localId) peerId st sdp answerSdp).2.ignoreOffer =
         (RTCAdapter.offerCollision st && !(jsStringLt localId peerId))) ∧
    (∀ (a b : String) (stA stB : PeerConnectionState) (sdpA sdpB ansA ansB : String),
       a ≠ "" → b ≠ "" → jsStringLt a b = true →
       RTCAdapter.offerCollision stA = true →
       RTCAdapter.offerCollision stB = true →
       ((RTCAdapter.handleOffer (some a) b stA sdpB ansA).1 = ansA ∧
        (RTCAdapter.handleOffer (some a) b stA sdpB ansA).2.ignoreOffer = false ∧
        (RTCAdapter.handleOffer (some a) b stA sdpB ansA).2.connection.remoteDescription =
          some { descType := "offer", sdp := sdpB } ∧
        (RTCAdapter.handleOffer (some a) b stA sdpB ansA).2.connection.localDescription =
          some { descType := "answer", sdp := ansA } ∧
        (RTCAdapter.handleOffer (some a) b stA sdpB ansA).2.connection.signalingState =
          RTCSignalingState.stable) ∧
       ((RTCAdapter.handleOffer (some b) a stB sdpA ansB).1 = "" ∧
        (RTCAdapter.handleOffer (some b) a stB sdpA ansB).2.ignoreOffer = true ∧
        (RTCAdapter.handleOffer (some b) a stB sdpA ansB).2.connection = stB.connection ∧
        (RTCAdapter.handleOffer (some b) a stB sdpA ansB).2.makingOffer =
          stB.makingOffer)) := by
  constructor
  · intro l p st sdp ans hl
    unfold RTCAdapter.handleOffer RTCAdapter.isPolite
    cases hlt : jsStringLt l p with
    | true =>
      cases hc : RTCAdapter.offerCollision st with
      | true => simp [hl, hlt, hc]
      | false => simp [hl, hlt, hc]
    | false =>
      cases hc : RTCAdapter.offerCollision st with
      | true => simp [hl, hlt, hc]
      | false => simp [hl, hlt, hc]
  · intro a b stA stB sdpA sdpB ansA ansB ha hb hab hcolA hcolB
    have hba : jsStringLt b a = false := jsStringLt_asymm a b hab
    refine ⟨?_, ?_⟩
    · unfold RTCAdapter.handleOffer RTCAdapter.isPolite
      simp [ha, hab, RTCPeerConnection.setRemoteOffer, RTCPeerConnection.setLocalAnswer]
    · unfold RTCAdapter.handleOffer RTCAdapter.isPolite
      simp [hb, hba, hcolB]

/-- C2 witness: peers `a < b`, both with an outstanding local offer
(signaling state `have-local-offer`): `a` answers `b`'s offer, `b` ignores
`a`'s offer and keeps its own local offer. -/
theorem C2_glare_resolution_witness :
    ((RTCAdapter.handleOffer (some "a") "b"
        { connection := { signalingState := RTCSignalingState.haveLocalOffer,
                          localDescription := some { descType := "offer", sdp := "oa" },
                          remoteDescription := none },
          makingOffer := false, ignoreOffer := false,
          isSettingRemoteAnswerPending := false } "ob" "ansA").1 = "ansA" ∧
     (RTCAdapter.handleOffer (some "a") "b"
        { connection := { signalingState := RTCSignalingState.haveLocalOffer,
                          localDescription := some { descType := "offer", sdp := "oa" },
                          remoteDescription := none },
          makingOffer := false, ignoreOffer := false,
          isSettingRemoteAnswerPending := false } "ob" "ansA").2.ignoreOffer = false ∧
     (RTCAdapter.handleOffer (some "a") "b"
        { connection := { signalingState := RTCSignalingState.haveLocalOffer,
                          localDescription := some { descType := "offer", sdp := "oa" },
                          remoteDescription := none },
          makingOffer := false, ignoreOffer := false,
          isSettingRemoteAnswerPending := false } "ob" "ansA").2.connection.remoteDescription =
       some { descType := "offer", sdp := "ob" } ∧
     (RTCAdapter.handleOffer (some "a") "b"
        { connection := { signalingState := RTCSignalingState.haveLocalOffer,
                          localDescription := some { descType := "offer", sdp := "oa" },
                          remoteDescription := none },
          makingOffer := false, ignoreOffer := false,
          isSettingRemoteAnswerPending := false } "ob" "ansA").2.connection.localDescription =
       some { descType := "answer", sdp := "ansA" } ∧
     (RTCAdapter.handleOffer (some "a") "b"
        { connection := { signalingState := RTCSignalingState.haveLocalOffer,
                          localDescription := some { descType := "offer", sdp := "oa" },
                          remoteDescription := none },
          makingOffer := false, ignoreOffer := false,
          isSettingRemoteAnswerPending := false } "ob" "ansA").2.connection.signalingState =
       RTCSignalingState.stable) ∧
    ((RTCAdapter.handleOffer (some "b") "a"
        { connection := { signalingState := RTCSignalingState.haveLocalOffer,
                          localDescription := some { descType := "offer", sdp := "ob" },
                          remoteDescription := none },
          makingOffer := false, ignoreOffer := false,
          isSettingRemoteAnswerPending := false } "oa" "ansB").1 = "" ∧
     (RTCAdapter.handleOffer (some "b") "a"
        { connection := { signalingState := RTCSignalingState.haveLocalOffer,
                          localDescription := some { descType := "offer", sdp := "ob" },
                          remoteDescription := none },
          makingOffer := false, ignoreOffer := false,
          isSettingRemoteAnswerPending := false } "oa" "ansB").2.ignoreOffer = true ∧
     (RTCAdapter.handleOffer (some "b") "a"
        { connection := { signalingState := RTCSignalingState.haveLocalOffer,
                          localDescription := some { descType := "offer", sdp := "ob" },
                          remoteDescription := none },
          makingOffer := false, ignoreOffer := false,
          isSettingRemoteAnswerPending := false } "oa" "ansB").2.connection =
       { signalingState := RTCSignalingState.haveLocalOffer,
         localDescription := some { descType := "offer", sdp := "ob" },
         remoteDescription := none } ∧
     (RTCAdapter.handleOffer (some "b") "a"
        { connection := { signalingState := RTCSignalingState.haveLocalOffer,
                          localDescription := some { descType := "offer", sdp := "ob" },
                          remoteDescription := none },
          makingOffer := false, ignoreOffer := false,
          isSettingRemoteAnswerPending := false } "oa" "ansB").2.makingOffer = false) :=
  C2_glare_resolution.2 "a" "b"
    { connection := { signalingState := RTCSignalingState.haveLocalOffer,
                      localDescription := some { descType := "offer", sdp := "oa" },
                      remoteDescription := none },
      makingOffer := false, ignoreOffer := false,
      isSettingRemoteAnswerPending := false }
    { connection := { signalingState := RTCSignalingState.haveLocalOffer,
                      localDescription := some { descType := "offer", sdp := "ob" },
                      remoteDescription := none },
      makingOffer := false, ignoreOffer := false,
      isSettingRemoteAnswerPending := false }
    "oa" "ob" "ansA" "ansB"
    (by decide) (by decide) (by decide) (by decide) (by decide)

/-- C3 counterexample: with the signaling state `have-local-offer` (not
stable) and the browser producing offer `o2`, `createOffer` is not a no-op
returning empty as the claim states: it returns the produced offer and
overwrites the local description. The source has no `isNegotiating` flag
and no guard of any kind before the offer attempt. -/
theorem C3_counterexample_guard_absent :
    (({ connection := { signalingState := RTCSignalingState.haveLocalOffer,
                        localDescription := some { descType := "offer", sdp := "o1" },
                        remoteDescription := none },
        makingOffer := false, ignoreOffer := false,
        isSettingRemoteAnswerPending := false } : PeerConnectionState)).connection.signalingState ≠
      RTCSignalingState.stable ∧
    (RTCAdapter.createOffer
       { connection := { signalingState := RTCSignalingState.haveLocalOffer,
                         localDescription := some { descType := "offer", sdp := "o1" },
                         remoteDescription := none },
         makingOffer := false, ignoreOffer := false,
         isSettingRemoteAnswerPending := false }
       (Except.ok "o2")).1 = Except.ok "o2" ∧
    (RTCAdapter.createOffer
       { connection := { signalingState := RTCSignalingState.haveLocalOffer,
                         localDescription := some { descType := "offer", sdp := "o1" },
                         remoteDescription := none },
         makingOffer := false, ignoreOffer := false,
         isSettingRemoteAnswerPending := false }
       (Except.ok "o2")).2.connection.localDescription =
      some { descType := "offer", sdp := "o2" } :=
  ⟨by decide, rfl, rfl⟩

/-- C3 amended: `createOffer` performs no negotiation-state check at all
(the adapter has no `isNegotiating` flag): for every per-peer state —
stable or not — it attempts the offer; on browser success it applies the
offer locally and returns it, on browser failure it rethrows, and
`makingOffer` is cleared in both cases (the `finally`). -/
theorem C3_createOffer_no_guard (st : PeerConnectionState) (sdp e : String) :
    (RTCAdapter.createOffer st (Except.ok sdp)).1 = Except.ok sdp ∧
    (RTCAdapter.createOffer st (Except.ok sdp)).2.makingOffer = false ∧
    (RTCAdapter.createOffer st (Except.ok sdp)).2.connection.localDescription =
      some { descType := "offer", sdp := sdp } ∧
    (RTCAdapter.createOffer st (Except.ok sdp)).2.connection.signalingState =
      RTCSignalingState.haveLocalOffer ∧
    (RTCAdapter.createOffer st (Except.error e)).1 = Except.error e ∧
    (RTCAdapter.createOffer st (Except.error e)).2 = { st with makingOffer := false } :=
  ⟨rfl, rfl, rfl, rfl, rfl, rfl⟩
